import Mathlib

set_option maxRecDepth 2048

/-!
Verification of the knowledge-platform MCP server's tool dispatch and
query-translation layer.

Shallow embedding of the two transport bindings of the server:
  - `Stdio` embeds apps/mcp-server/src/index.ts (stdio binding);
  - `Sse` embeds apps/mcp-server/src/sse-server.ts (HTTP/SSE binding).

Modelling conventions:
  - JavaScript values that may be `undefined` are `Option` values; an object
    field that is `undefined` is omitted by `JSON.stringify`, which the
    serialization helpers reproduce via `jfields`.
  - The Meilisearch backend is an opaque collaborator `Backend` with a
    `search` call (taking the index name, the query text, and the search
    parameter object) and a `getDocument` call; either may fail.  A failed
    `getDocument` carries a `MeiliErrorKind` so that a not-found failure can
    be distinguished from any other failure.
  - JavaScript string truthiness (the empty string is falsy in `a || b`) is
    `jsOrS` / `jsOrOpt`; template-literal interpolation of `undefined`
    renders the string "undefined", which is `jsStr`.
  - `Array.prototype.sort` is required by ECMAScript to be stable; the sort
    by the comparator `(a, b) => b.count - a.count` is modelled by the stable
    insertion sort `Stdio.sortDesc` (descending by count, ties keeping the
    original order).
  - The success / error envelope produced by the `CallToolRequestSchema`
    handler is `Envelope`: `payload` is the JSON value that the transport
    serializes into `content[0].text`, and `isError` is the error marker.
  - Tool descriptors are modelled by their name and input-schema skeleton
    (property names and required names); the prose `description` strings are
    elided.
-/

/-- JSON values, the common result currency of every tool handler. -/
inductive Json where
  | null
  | bool (b : Bool)
  | num (n : Int)
  | str (s : String)
  | arr (xs : List Json)
  | obj (fields : List (String × Json))

/-- Field access on a JSON object (used to state which keys a result has). -/
def Json.getField : Json → String → Option Json
  | .obj fs, k => fs.lookup k
  | _, _ => none

/-- JavaScript `a || b` on a possibly-undefined string: the empty string is
falsy, so it falls through to the default. -/
def jsOrS : Option String → String → String
  | none, b => b
  | some s, b => if s = "" then b else s

/-- JavaScript `a || b` where both sides are possibly-undefined strings. -/
def jsOrOpt : Option String → Option String → Option String
  | none, b => b
  | some s, b => if s = "" then b else some s

/-- Template-literal rendering of a possibly-undefined string. -/
def jsStr (o : Option String) : String :=
  o.getD "undefined"

/-- JavaScript `s.slice(0, n)`: the prefix of at most n characters. -/
def jsSlice (s : String) (n : Nat) : String :=
  ⟨s.data.take n⟩

/-- The Meilisearch search-parameter object built by the handlers. -/
structure SearchParams where
  limit : Option Int := none
  attributesToHighlight : Option (List String) := none
  highlightPreTag : Option String := none
  highlightPostTag : Option String := none
  attributesToRetrieve : Option (List String) := none
  filter : Option String := none
  facets : Option (List String) := none
deriving DecidableEq

/-- The `_formatted` object attached to a hit when highlighting was asked. -/
structure FormattedFields where
  description : Option String := none
  content : Option String := none
deriving DecidableEq

/-- A raw backend hit (or a raw stored document): every attribute the two
bindings ever read, each possibly absent. -/
structure RawHit where
  id : Option String := none
  title : Option String := none
  path : Option String := none
  description : Option String := none
  tags : Option (List String) := none
  source_url : Option String := none
  updated_at : Option String := none
  content : Option String := none
  document_id : Option String := none
  chunk_index : Option Int := none
  total_chunks : Option Int := none
  formatted : Option FormattedFields := none
deriving DecidableEq

/-- A raw backend search response: estimated total, ranked hits, and the
optional facet distribution (a field-name keyed map of value counts, in the
order the backend serialized it). -/
structure SearchResponse where
  estimatedTotalHits : Nat := 0
  hits : List RawHit := []
  facetDistribution : Option (List (String × List (String × Nat))) := none
deriving DecidableEq

/-- The kind of a failed direct document lookup. -/
inductive MeiliErrorKind where
  | notFound
  | other
deriving DecidableEq

/-- A failure reported by the backend's getDocument call. -/
structure MeiliError where
  kind : MeiliErrorKind
  message : String
deriving DecidableEq

/-- The opaque search-engine collaborator: `search index text params` and
`getDocument index id`. -/
structure Backend where
  search : String → Option String → SearchParams → Except String SearchResponse
  getDocument : String → Option String → Except MeiliError RawHit

/-- Process-wide configuration (environment defaults shown). -/
structure Config where
  indexName : String := "documents"
  chunksIndexName : String := "documents_chunks"
deriving DecidableEq

/-- The untyped argument bag handed to a handler (`args as any`): every
parameter any tool reads, each possibly absent. -/
structure ToolArgs where
  query : Option String := none
  limit : Option Int := none
  tags : Option (List String) := none
  document_id : Option String := none
  id : Option String := none
  question : Option String := none
deriving DecidableEq

/-- The transport response envelope: the JSON payload that is serialized
into `content[0].text` plus the `isError` marker. -/
structure Envelope where
  payload : Json
  isError : Bool := false

/-- A tool descriptor: name plus input-schema skeleton (property names and
required property names); the prose description strings are elided. -/
structure ToolDescriptor where
  name : String
  propNames : List String
  required : List String
deriving DecidableEq

/-- Build a JSON object, dropping the fields whose value is `undefined`,
exactly as `JSON.stringify` does. -/
def jfields (ps : List (String × Option Json)) : List (String × Json) :=
  ps.filterMap (fun p => p.2.map (fun v => (p.1, v)))

/-- Serialization of a `_formatted` object. -/
def FormattedFields.toJson (f : FormattedFields) : Json :=
  .obj (jfields [
    ("description", f.description.map .str),
    ("content", f.content.map .str)])

/-- Serialization of a raw hit / raw document returned verbatim. -/
def RawHit.toJson (h : RawHit) : Json :=
  .obj (jfields [
    ("id", h.id.map .str),
    ("title", h.title.map .str),
    ("path", h.path.map .str),
    ("description", h.description.map .str),
    ("tags", h.tags.map (fun ts => .arr (ts.map .str))),
    ("source_url", h.source_url.map .str),
    ("updated_at", h.updated_at.map .str),
    ("content", h.content.map .str),
    ("document_id", h.document_id.map .str),
    ("chunk_index", h.chunk_index.map .num),
    ("total_chunks", h.total_chunks.map .num),
    ("_formatted", h.formatted.map FormattedFields.toJson)])

namespace Stdio

/-- The stdio binding's tool registry (apps/mcp-server/src/index.ts, the
`tools` array), as name plus schema skeleton. -/
def tools : List ToolDescriptor := [
  { name := "search_docs", propNames := ["query", "limit", "tags"], required := ["query"] },
  { name := "search_chunks", propNames := ["query", "limit", "document_id"], required := ["query"] },
  { name := "get_document", propNames := ["id"], required := ["id"] },
  { name := "list_tags", propNames := [], required := [] },
  { name := "lookup_decision", propNames := ["question"], required := ["question"] }]

/-- The search-parameter object built by `handleSearchDocs`: limit
`Math.min(limit ?? 10, 50)`, highlighting on content/title/description with
marker `**`, a fixed projection, and — when `tags` is a non-empty array —
the OR-join of one exact tag-equality clause per tag. -/
def searchDocsParams (args : ToolArgs) : SearchParams :=
  { limit := some (min (args.limit.getD 10) 50)
    attributesToHighlight := some ["content", "title", "description"]
    highlightPreTag := some "**"
    highlightPostTag := some "**"
    attributesToRetrieve := some ["id", "title", "path", "description", "tags", "source_url", "updated_at"]
    filter :=
      match args.tags with
      | some ts =>
        if 0 < ts.length then
          some (String.intercalate " OR " (ts.map (fun t => "tags = \"" ++ t ++ "\"")))
        else none
      | none => none }

/-- The snippet of a normalized document hit:
`hit._formatted?.description || hit._formatted?.content?.slice(0, 300) || ""`. -/
def snippetOf (h : RawHit) : String :=
  jsOrS (h.formatted.bind (fun f => f.description))
    (jsOrS ((h.formatted.bind (fun f => f.content)).map (fun c => jsSlice c 300)) "")

/-- One normalized document result of `handleSearchDocs`. -/
structure DocOut where
  id : Option String
  title : Option String
  path : Option String
  description : String
  tags : List String
  source_url : Option String
  updated_at : Option String
  snippet : String
deriving DecidableEq

/-- Normalization of one raw hit by `handleSearchDocs`. -/
def docOutOfHit (h : RawHit) : DocOut :=
  { id := h.id
    title := h.title
    path := h.path
    description := jsOrS h.description ""
    tags := h.tags.getD []
    source_url := h.source_url
    updated_at := h.updated_at
    snippet := snippetOf h }

/-- The result object of `handleSearchDocs`. -/
structure SearchDocsRes where
  total : Nat
  results : List DocOut
deriving DecidableEq

/-- `handleSearchDocs`: one backend search on the primary index, then
normalization of every hit. -/
def handleSearchDocs (cfg : Config) (be : Backend) (args : ToolArgs) :
    Except String SearchDocsRes :=
  match be.search cfg.indexName args.query (searchDocsParams args) with
  | .error e => .error e
  | .ok r => .ok { total := r.estimatedTotalHits, results := r.hits.map docOutOfHit }

/-- Serialization of one normalized document result. -/
def docOutJson (d : DocOut) : Json :=
  .obj (jfields [
    ("id", d.id.map .str),
    ("title", d.title.map .str),
    ("path", d.path.map .str),
    ("description", some (.str d.description)),
    ("tags", some (.arr (d.tags.map .str))),
    ("source_url", d.source_url.map .str),
    ("updated_at", d.updated_at.map .str),
    ("snippet", some (.str d.snippet))])

/-- Serialization of the `handleSearchDocs` result. -/
def searchDocsResJson (r : SearchDocsRes) : Json :=
  .obj [("total", .num (r.total : Int)),
        ("results", .arr (r.results.map docOutJson))]

/-- The search-parameter object built by `handleSearchChunks`: limit
`Math.min(limit ?? 10, 50)`, highlighting on content only, and — when
`document_id` is truthy — an exact-match equality filter on it. -/
def searchChunksParams (args : ToolArgs) : SearchParams :=
  { limit := some (min (args.limit.getD 10) 50)
    attributesToHighlight := some ["content"]
    highlightPreTag := some "**"
    highlightPostTag := some "**"
    filter :=
      match args.document_id with
      | some d => if d = "" then none else some ("document_id = \"" ++ d ++ "\"")
      | none => none }

/-- One normalized chunk result of `handleSearchChunks`. -/
structure ChunkOut where
  id : Option String
  document_id : Option String
  title : Option String
  path : Option String
  content : Option String
  chunk_index : Option Int
  total_chunks : Option Int
deriving DecidableEq

/-- Normalization of one raw hit by `handleSearchChunks`:
`content` is `hit._formatted?.content || hit.content`. -/
def chunkOutOfHit (h : RawHit) : ChunkOut :=
  { id := h.id
    document_id := h.document_id
    title := h.title
    path := h.path
    content := jsOrOpt (h.formatted.bind (fun f => f.content)) h.content
    chunk_index := h.chunk_index
    total_chunks := h.total_chunks }

/-- The result object of `handleSearchChunks`. -/
structure SearchChunksRes where
  total : Nat
  chunks : List ChunkOut
deriving DecidableEq

/-- `handleSearchChunks`: one backend search on the chunk index, then
normalization of every hit. -/
def handleSearchChunks (cfg : Config) (be : Backend) (args : ToolArgs) :
    Except String SearchChunksRes :=
  match be.search cfg.chunksIndexName args.query (searchChunksParams args) with
  | .error e => .error e
  | .ok r => .ok { total := r.estimatedTotalHits, chunks := r.hits.map chunkOutOfHit }

/-- Serialization of one normalized chunk result. -/
def chunkOutJson (c : ChunkOut) : Json :=
  .obj (jfields [
    ("id", c.id.map .str),
    ("document_id", c.document_id.map .str),
    ("title", c.title.map .str),
    ("path", c.path.map .str),
    ("content", c.content.map .str),
    ("chunk_index", c.chunk_index.map .num),
    ("total_chunks", c.total_chunks.map .num)])

/-- Serialization of the `handleSearchChunks` result. -/
def searchChunksResJson (r : SearchChunksRes) : Json :=
  .obj [("total", .num (r.total : Int)),
        ("chunks", .arr (r.chunks.map chunkOutJson))]

/-- The search-parameter object of the path-based fallback of
`handleGetDocument`: filter `path = "<id>"`, limit 1. -/
def getDocSearchParams (id : Option String) : SearchParams :=
  { filter := some ("path = \"" ++ jsStr id ++ "\"")
    limit := some 1 }

/-- `handleGetDocument`: direct lookup by id; on any lookup failure, a
path-filtered search with limit 1; the first hit if any, else a not-found
error. -/
def handleGetDocument (cfg : Config) (be : Backend) (args : ToolArgs) :
    Except String RawHit :=
  match be.getDocument cfg.indexName args.id with
  | .ok doc => .ok doc
  | .error _ =>
    match be.search cfg.indexName (some "") (getDocSearchParams args.id) with
    | .error e => .error e
    | .ok r =>
      match r.hits with
      | h :: _ => .ok h
      | [] => .error ("Document not found: " ++ jsStr args.id)

/-- The search-parameter object of `handleListTags`: a facet-count request
on the tags field with limit 0. -/
def listTagsParams : SearchParams :=
  { facets := some ["tags"]
    limit := some 0 }

/-- Stable insertion of an entry into a count-descending list: the entry
goes before the first entry whose count is not larger. -/
def insertDesc (x : String × Nat) : List (String × Nat) → List (String × Nat)
  | [] => [x]
  | y :: ys => if y.2 ≤ x.2 then x :: y :: ys else y :: insertDesc x ys

/-- The stable sort by count descending performed by `handleListTags`
(`.sort((a, b) => b.count - a.count)`; ECMAScript requires `sort` to be
stable, so ties keep the original order). -/
def sortDesc : List (String × Nat) → List (String × Nat)
  | [] => []
  | x :: xs => insertDesc x (sortDesc xs)

/-- The result object of `handleListTags`. -/
structure ListTagsRes where
  tags : List (String × Nat)
deriving DecidableEq

/-- `handleListTags`: an empty-text facet query, then
`Object.entries(results.facetDistribution?.tags || {})` sorted by count
descending. -/
def handleListTags (cfg : Config) (be : Backend) : Except String ListTagsRes :=
  match be.search cfg.indexName (some "") listTagsParams with
  | .error e => .error e
  | .ok r =>
    let tagCounts := (r.facetDistribution.bind (fun fd => fd.lookup "tags")).getD []
    .ok { tags := sortDesc tagCounts }

/-- Serialization of the `handleListTags` result. -/
def listTagsResJson (r : ListTagsRes) : Json :=
  .obj [("tags", .arr (r.tags.map (fun e =>
    .obj [("tag", .str e.1), ("count", .num (e.2 : Int))])))]

/-- One evidence entry of `handleLookupDecision`, projected from a
normalized document result. -/
structure RelevantDoc where
  title : Option String
  path : Option String
  description : String
  tags : List String
  source_url : Option String
  snippet : String
deriving DecidableEq

/-- Projection of a normalized document result onto an evidence entry. -/
def relevantOf (d : DocOut) : RelevantDoc :=
  { title := d.title
    path := d.path
    description := d.description
    tags := d.tags
    source_url := d.source_url
    snippet := d.snippet }

/-- The tagged result of `handleLookupDecision`. -/
inductive LookupRes where
  | notFound (message suggestion : String)
  | found (question : Option String) (relevant : List RelevantDoc) (note : String)
deriving DecidableEq

/-- `handleLookupDecision`: one `handleSearchDocs` call with the question as
query and limit 5; zero hits gives the fixed not-found guidance, otherwise
the evidence list plus the fixed synthesis note. -/
def handleLookupDecision (cfg : Config) (be : Backend) (args : ToolArgs) :
    Except String LookupRes :=
  match handleSearchDocs cfg be { query := args.question, limit := some 5 } with
  | .error e => .error e
  | .ok r =>
    if r.results.length = 0 then
      .ok (.notFound "No relevant decisions found for this question."
        "Try rephrasing your question or use search_docs with different keywords.")
    else
      .ok (.found args.question (r.results.map relevantOf)
        "Synthesize an answer from these documents. If the answer is unclear, say so.")

/-- Serialization of one evidence entry. -/
def relevantDocJson (d : RelevantDoc) : Json :=
  .obj (jfields [
    ("title", d.title.map .str),
    ("path", d.path.map .str),
    ("description", some (.str d.description)),
    ("tags", some (.arr (d.tags.map .str))),
    ("source_url", d.source_url.map .str),
    ("snippet", some (.str d.snippet))])

/-- Serialization of the `handleLookupDecision` result: the not-found shape
has no `relevant_documents` key. -/
def lookupResJson : LookupRes → Json
  | .notFound m s =>
    .obj [("found", .bool false), ("message", .str m), ("suggestion", .str s)]
  | .found q docs n =>
    .obj (jfields [
      ("found", some (.bool true)),
      ("question", q.map .str),
      ("relevant_documents", some (.arr (docs.map relevantDocJson))),
      ("note", some (.str n))])

/-- The body of the `CallToolRequestSchema` handler's `switch`: run the
named tool, an unknown name being a failure. -/
def runTool (cfg : Config) (be : Backend) (name : String) (args : ToolArgs) :
    Except String Json :=
  if name = "search_docs" then (handleSearchDocs cfg be args).map searchDocsResJson
  else if name = "search_chunks" then (handleSearchChunks cfg be args).map searchChunksResJson
  else if name = "get_document" then (handleGetDocument cfg be args).map RawHit.toJson
  else if name = "list_tags" then (handleListTags cfg be).map listTagsResJson
  else if name = "lookup_decision" then (handleLookupDecision cfg be args).map lookupResJson
  else .error ("Unknown tool: " ++ name)

/-- The stdio dispatch loop: run the tool under try/catch and wrap the
outcome as a success envelope or an `isError` envelope with the message. -/
def dispatch (cfg : Config) (be : Backend) (name : String) (args : ToolArgs) :
    Envelope :=
  match runTool cfg be name args with
  | .ok j => { payload := j, isError := false }
  | .error e => { payload := .obj [("error", .str e)], isError := true }

end Stdio

namespace Sse

/-- The SSE binding's tool registry (apps/mcp-server/src/sse-server.ts, the
`tools` array), as name plus schema skeleton; it has no list_tags tool. -/
def tools : List ToolDescriptor := [
  { name := "search_docs", propNames := ["query", "limit", "tags"], required := ["query"] },
  { name := "search_chunks", propNames := ["query", "limit", "document_id"], required := ["query"] },
  { name := "get_document", propNames := ["id"], required := ["id"] },
  { name := "lookup_decision", propNames := ["question"], required := ["question"] }]

/-- The search-parameter object built by the SSE `handleSearchDocs`: limit
`Math.min(limit ?? 10, 50)`, highlighting on content/title only, no
projection, and the same OR-joined tag filter as the stdio binding. -/
def searchDocsParams (args : ToolArgs) : SearchParams :=
  { limit := some (min (args.limit.getD 10) 50)
    attributesToHighlight := some ["content", "title"]
    highlightPreTag := some "**"
    highlightPostTag := some "**"
    filter :=
      match args.tags with
      | some ts =>
        if 0 < ts.length then
          some (String.intercalate " OR " (ts.map (fun t => "tags = \"" ++ t ++ "\"")))
        else none
      | none => none }

/-- The snippet of a normalized document hit in the SSE binding:
`hit._formatted?.content?.slice(0, 300) || ""` — the highlighted
description is never consulted. -/
def snippetOf (h : RawHit) : String :=
  jsOrS ((h.formatted.bind (fun f => f.content)).map (fun c => jsSlice c 300)) ""

/-- One normalized document result of the SSE `handleSearchDocs`. -/
structure DocOut where
  id : Option String
  title : Option String
  path : Option String
  tags : List String
  snippet : String
deriving DecidableEq

/-- Normalization of one raw hit by the SSE `handleSearchDocs`. -/
def docOutOfHit (h : RawHit) : DocOut :=
  { id := h.id
    title := h.title
    path := h.path
    tags := h.tags.getD []
    snippet := snippetOf h }

/-- The result object of the SSE `handleSearchDocs`. -/
structure SearchDocsRes where
  total : Nat
  results : List DocOut
deriving DecidableEq

/-- The SSE `handleSearchDocs`: one backend search on the primary index,
then normalization of every hit. -/
def handleSearchDocs (cfg : Config) (be : Backend) (args : ToolArgs) :
    Except String SearchDocsRes :=
  match be.search cfg.indexName args.query (searchDocsParams args) with
  | .error e => .error e
  | .ok r => .ok { total := r.estimatedTotalHits, results := r.hits.map docOutOfHit }

/-- Serialization of one normalized SSE document result. -/
def docOutJson (d : DocOut) : Json :=
  .obj (jfields [
    ("id", d.id.map .str),
    ("title", d.title.map .str),
    ("path", d.path.map .str),
    ("tags", some (.arr (d.tags.map .str))),
    ("snippet", some (.str d.snippet))])

/-- Serialization of the SSE `handleSearchDocs` result. -/
def searchDocsResJson (r : SearchDocsRes) : Json :=
  .obj [("total", .num (r.total : Int)),
        ("results", .arr (r.results.map docOutJson))]

/-- The search-parameter object built by the SSE `handleSearchChunks`: the
caller-supplied limit is passed through without the `Math.min(_, 50)` cap,
no highlighting, and the truthy `document_id` equality filter. -/
def searchChunksParams (args : ToolArgs) : SearchParams :=
  { limit := some (args.limit.getD 10)
    filter :=
      match args.document_id with
      | some d => if d = "" then none else some ("document_id = \"" ++ d ++ "\"")
      | none => none }

/-- The result object of the SSE `handleSearchChunks`: the raw hits are
returned verbatim. -/
structure SearchChunksRes where
  total : Nat
  chunks : List RawHit
deriving DecidableEq

/-- The SSE `handleSearchChunks`: one backend search on the chunk index; the
hits are not normalized. -/
def handleSearchChunks (cfg : Config) (be : Backend) (args : ToolArgs) :
    Except String SearchChunksRes :=
  match be.search cfg.chunksIndexName args.query (searchChunksParams args) with
  | .error e => .error e
  | .ok r => .ok { total := r.estimatedTotalHits, chunks := r.hits }

/-- Serialization of the SSE `handleSearchChunks` result. -/
def searchChunksResJson (r : SearchChunksRes) : Json :=
  .obj [("total", .num (r.total : Int)),
        ("chunks", .arr (r.chunks.map RawHit.toJson))]

/-- The search-parameter object of the SSE `handleGetDocument` fallback:
filter `path = "<id>"`, limit 1 (identical to the stdio binding). -/
def getDocSearchParams (id : Option String) : SearchParams :=
  { filter := some ("path = \"" ++ jsStr id ++ "\"")
    limit := some 1 }

/-- The SSE `handleGetDocument`: direct lookup by id; on any lookup failure,
a path-filtered search with limit 1; the first hit if any, else a not-found
error (identical to the stdio binding). -/
def handleGetDocument (cfg : Config) (be : Backend) (args : ToolArgs) :
    Except String RawHit :=
  match be.getDocument cfg.indexName args.id with
  | .ok doc => .ok doc
  | .error _ =>
    match be.search cfg.indexName (some "") (getDocSearchParams args.id) with
    | .error e => .error e
    | .ok r =>
      match r.hits with
      | h :: _ => .ok h
      | [] => .error ("Document not found: " ++ jsStr args.id)

/-- The tagged result of the SSE `handleLookupDecision`: the not-found shape
has no suggestion, and the found shape has no synthesis note. -/
inductive LookupRes where
  | notFound (message : String)
  | found (question : Option String) (relevant : List DocOut)
deriving DecidableEq

/-- The SSE `handleLookupDecision`: one SSE `handleSearchDocs` call with the
question as query and limit 5; zero hits gives a short not-found message,
otherwise the normalized results verbatim, with no synthesis note. -/
def handleLookupDecision (cfg : Config) (be : Backend) (args : ToolArgs) :
    Except String LookupRes :=
  match handleSearchDocs cfg be { query := args.question, limit := some 5 } with
  | .error e => .error e
  | .ok r =>
    if r.results.length = 0 then
      .ok (.notFound "No relevant decisions found.")
    else
      .ok (.found args.question r.results)

/-- Serialization of the SSE `handleLookupDecision` result: the not-found
shape has no `relevant_documents` and no `suggestion` key, and the found
shape has no `note` key. -/
def lookupResJson : LookupRes → Json
  | .notFound m =>
    .obj [("found", .bool false), ("message", .str m)]
  | .found q docs =>
    .obj (jfields [
      ("found", some (.bool true)),
      ("question", q.map .str),
      ("relevant_documents", some (.arr (docs.map docOutJson)))])

/-- The body of the SSE `CallToolRequestSchema` handler's `switch`: run the
named tool, an unknown name (including list_tags) being a failure. -/
def runTool (cfg : Config) (be : Backend) (name : String) (args : ToolArgs) :
    Except String Json :=
  if name = "search_docs" then (handleSearchDocs cfg be args).map searchDocsResJson
  else if name = "search_chunks" then (handleSearchChunks cfg be args).map searchChunksResJson
  else if name = "get_document" then (handleGetDocument cfg be args).map RawHit.toJson
  else if name = "lookup_decision" then (handleLookupDecision cfg be args).map lookupResJson
  else .error ("Unknown tool: " ++ name)

/-- The SSE dispatch loop: run the tool under try/catch and wrap the outcome
as a success envelope or an `isError` envelope with the message. -/
def dispatch (cfg : Config) (be : Backend) (name : String) (args : ToolArgs) :
    Envelope :=
  match runTool cfg be name args with
  | .ok j => { payload := j, isError := false }
  | .error e => { payload := .obj [("error", .str e)], isError := true }

end Sse

/-- The default configuration. -/
def cfgD : Config := {}

/-- A sample stored document / hit. -/
def hitA : RawHit :=
  { id := some "doc-1"
    title := some "ADR 1"
    path := some "docs/adr-1.md"
    tags := some ["adr"] }

/-- A hit whose highlighted description is present and non-empty but whose
highlighted content is absent. -/
def hitDescOnly : RawHit :=
  { formatted := some { description := some "**adr** context" } }

/-- A hit whose highlighted description is the empty string (falsy in
JavaScript) while highlighted content is present. -/
def hitEmptyDesc : RawHit :=
  { formatted := some { description := some "", content := some "body" } }

/-- A hit with highlighted content only. -/
def hitContentOnly : RawHit :=
  { formatted := some { content := some "chunk text" } }

/-- A backend response with one hit. -/
def respOne : SearchResponse :=
  { estimatedTotalHits := 1, hits := [hitA] }

/-- A backend response with no hit and no facet distribution. -/
def respEmpty : SearchResponse := {}

/-- A backend response carrying only facet counts for the tags field. -/
def respFacets : SearchResponse :=
  { facetDistribution := some [("tags", [("a", 3), ("b", 7)])] }

/-- A backend response whose facet distribution lacks a tags entry. -/
def respNoTagsFacet : SearchResponse :=
  { facetDistribution := some [("lang", [("en", 2)])] }

/-- A healthy backend: every search returns the one-hit response, every
direct lookup returns the sample document. -/
def beOk : Backend :=
  { search := fun _ _ _ => .ok respOne
    getDocument := fun _ _ => .ok hitA }

/-- An unreachable backend: every call fails with a connection error. -/
def beDown : Backend :=
  { search := fun _ _ _ => .error "meili down"
    getDocument := fun _ _ => .error { kind := .other, message := "meili down" } }

/-- A backend with an empty index: searches return no hit, direct lookups
report not-found. -/
def beEmpty : Backend :=
  { search := fun _ _ _ => .ok respEmpty
    getDocument := fun _ _ => .error { kind := .notFound, message := "document not found" } }

/-- A backend whose direct lookup fails with a non-not-found error while its
search still answers with the one-hit response. -/
def beConnRefused : Backend :=
  { search := fun _ _ _ => .ok respOne
    getDocument := fun _ _ => .error { kind := .other, message := "connection refused" } }

/-- A backend answering every search with the tags facet response. -/
def beFacets : Backend :=
  { search := fun _ _ _ => .ok respFacets
    getDocument := fun _ _ => .error { kind := .notFound, message := "document not found" } }

/-- A backend answering every search with a facet response that has no tags
entry. -/
def beNoTagsFacet : Backend :=
  { search := fun _ _ _ => .ok respNoTagsFacet
    getDocument := fun _ _ => .error { kind := .notFound, message := "document not found" } }

namespace Stdio

/-- Inserting into a list is a permutation of consing. -/
theorem insertDesc_perm (x : String × Nat) (l : List (String × Nat)) :
    (insertDesc x l).Perm (x :: l) := by
  induction l with
  | nil => simp [insertDesc]
  | cons y ys ih =>
    by_cases h : y.2 ≤ x.2
    · simp [insertDesc, h]
    · simp only [insertDesc, if_neg h]
      exact (ih.cons y).trans (List.Perm.swap x y ys)

/-- The sort permutes its input. -/
theorem sortDesc_perm (l : List (String × Nat)) : (sortDesc l).Perm l := by
  induction l with
  | nil => simp [sortDesc]
  | cons x xs ih =>
    show (insertDesc x (sortDesc xs)).Perm (x :: xs)
    exact (insertDesc_perm x (sortDesc xs)).trans (ih.cons x)

/-- Inserting into a count-descending list keeps it count-descending. -/
theorem pairwise_insertDesc (x : String × Nat) (l : List (String × Nat))
    (hl : l.Pairwise (fun a b => b.2 ≤ a.2)) :
    (insertDesc x l).Pairwise (fun a b => b.2 ≤ a.2) := by
  induction l with
  | nil => simp [insertDesc]
  | cons y ys ih =>
    obtain ⟨hy, hys⟩ := List.pairwise_cons.mp hl
    by_cases h : y.2 ≤ x.2
    · simp only [insertDesc, if_pos h]
      refine List.pairwise_cons.mpr ⟨?_, hl⟩
      intro z hz
      rcases List.mem_cons.mp hz with rfl | hz
      · exact h
      · exact le_trans (hy z hz) h
    · simp only [insertDesc, if_neg h]
      refine List.pairwise_cons.mpr ⟨?_, ih hys⟩
      intro z hz
      have hz' : z = x ∨ z ∈ ys := by
        have hmem := (insertDesc_perm x ys).mem_iff.mp hz
        simpa using hmem
      rcases hz' with rfl | hz'
      · exact le_of_lt (Nat.lt_of_not_le h)
      · exact hy z hz'

/-- The sort's output is count-descending. -/
theorem sortDesc_sorted (l : List (String × Nat)) :
    (sortDesc l).Pairwise (fun a b => b.2 ≤ a.2) := by
  induction l with
  | nil => simp [sortDesc]
  | cons x xs ih =>
    show (insertDesc x (sortDesc xs)).Pairwise (fun a b => b.2 ≤ a.2)
    exact pairwise_insertDesc x (sortDesc xs) ih

/-- The entries of one fixed count pass through an insertion with the
inserted entry, when of that count, put first. -/
theorem filter_insertDesc (x : String × Nat) (l : List (String × Nat)) (c : Nat) :
    (insertDesc x l).filter (fun e => e.2 == c) =
      (if x.2 = c then [x] else []) ++ l.filter (fun e => e.2 == c) := by
  induction l with
  | nil => by_cases hx : x.2 = c <;> simp [insertDesc, List.filter_cons, hx]
  | cons y ys ih =>
    by_cases h : y.2 ≤ x.2
    · simp only [insertDesc, if_pos h]
      by_cases hx : x.2 = c <;> simp [List.filter_cons, hx]
    · simp only [insertDesc, if_neg h]
      by_cases hx : x.2 = c
      · have hy : ¬ y.2 = c := by omega
        simp [List.filter_cons, hx, hy, ih]
      · simp [List.filter_cons, hx, ih]

/-- Stability of the sort: the subsequence of entries holding any one fixed
count is unchanged, so ties keep the original (backend) order. -/
theorem sortDesc_filter (l : List (String × Nat)) (c : Nat) :
    (sortDesc l).filter (fun e => e.2 == c) = l.filter (fun e => e.2 == c) := by
  induction l with
  | nil => rfl
  | cons x xs ih =>
    show ((insertDesc x (sortDesc xs)).filter fun e => e.2 == c) = _
    rw [filter_insertDesc]
    by_cases hx : x.2 = c <;> simp [List.filter_cons, hx, ih]

end Stdio

/-- C1 counterexample: the claim fails as stated — the SSE binding's
search_chunks handler passes the caller-supplied limit 100 through to the
backend unclamped, which is not min(100, 50) = 50; and the stdio search_docs
handler passes the caller-supplied limit -7 through as min(-7, 50) = -7,
which does not lie in the interval [0, 50]. -/
theorem c1_limit_counterexample :
    (Sse.searchChunksParams { limit := some 100 }).limit = some 100 ∧
    some (100 : Int) ≠ some (min (100 : Int) 50) ∧
    (Stdio.searchDocsParams { limit := some (-7) }).limit = some (-7) ∧
    ¬ (0 : Int) ≤ -7 := by
  refine ⟨by decide, by decide, by decide, by decide⟩

/-- C1 amended: in the stdio binding both search tools, and in the SSE
binding search_docs, pass min(L, 50) as the backend limit (10 when L is
absent), which lies in [0, 50] whenever 0 ≤ L but is not clamped from below
for negative L; the SSE binding's search_chunks passes the caller-supplied
limit through unchanged (10 when absent). -/
theorem c1_limit_amended (args : ToolArgs) :
    (Stdio.searchDocsParams args).limit = some (min (args.limit.getD 10) 50) ∧
    (Stdio.searchChunksParams args).limit = some (min (args.limit.getD 10) 50) ∧
    (Sse.searchDocsParams args).limit = some (min (args.limit.getD 10) 50) ∧
    (Sse.searchChunksParams args).limit = some (args.limit.getD 10) ∧
    (args.limit = none → args.limit.getD 10 = 10) ∧
    (∀ L : Int, 0 ≤ L → 0 ≤ min L 50 ∧ min L 50 ≤ 50) := by
  refine ⟨rfl, rfl, rfl, rfl, fun h => by rw [h]; rfl,
    fun L hL => ⟨le_min hL (by norm_num), min_le_right _ _⟩⟩

/-- C1 witness: the amended statement evaluated at a concrete argument set
and at the concrete requested limit 99. -/
theorem c1_limit_amended_witness :
    (Stdio.searchDocsParams {}).limit = some (min ((10 : Int)) 50) ∧
    ({} : ToolArgs).limit.getD 10 = 10 ∧
    (0 : Int) ≤ min 99 50 ∧ min (99 : Int) 50 ≤ 50 := by
  have h := c1_limit_amended {}
  exact ⟨h.1, h.2.2.2.2.1 rfl, (h.2.2.2.2.2 99 (by norm_num)).1,
    (h.2.2.2.2.2 99 (by norm_num)).2⟩

/-- C2 counterexample: the claim fails as stated — the direct lookup fails
with a connection error, which is not a not-found signal, yet both bindings
still fall back to the path-filtered search and return its hit, so the
fallback is not restricted to not-found failures. -/
theorem c2_fallback_counterexample :
    beConnRefused.getDocument cfgD.indexName (some "docs/adr-1.md") =
      .error { kind := .other, message := "connection refused" } ∧
    Stdio.handleGetDocument cfgD beConnRefused { id := some "docs/adr-1.md" } = .ok hitA ∧
    Sse.handleGetDocument cfgD beConnRefused { id := some "docs/adr-1.md" } = .ok hitA :=
  ⟨rfl, rfl, rfl⟩

/-- C2 amended: in both bindings get_document first attempts the direct
lookup and returns its document on success; on any direct-lookup failure
(not only a not-found signal) it falls back to the search with filter
path = id and limit 1; if that search returns no hit the handler fails with
the not-found error, and if it returns at least one hit the first hit is
returned. -/
theorem c2_fallback_amended (cfg : Config) (be : Backend) (args : ToolArgs) :
    (∀ d, be.getDocument cfg.indexName args.id = .ok d →
      Stdio.handleGetDocument cfg be args = .ok d ∧
      Sse.handleGetDocument cfg be args = .ok d) ∧
    (∀ err r, be.getDocument cfg.indexName args.id = .error err →
      be.search cfg.indexName (some "") (Stdio.getDocSearchParams args.id) = .ok r →
      (r.hits = [] →
        Stdio.handleGetDocument cfg be args =
          .error ("Document not found: " ++ jsStr args.id) ∧
        Sse.handleGetDocument cfg be args =
          .error ("Document not found: " ++ jsStr args.id)) ∧
      (∀ h t, r.hits = h :: t →
        Stdio.handleGetDocument cfg be args = .ok h ∧
        Sse.handleGetDocument cfg be args = .ok h)) := by
  have hparams : Sse.getDocSearchParams args.id = Stdio.getDocSearchParams args.id := rfl
  constructor
  · intro d hd
    constructor <;> simp [Stdio.handleGetDocument, Sse.handleGetDocument, hd]
  · intro err r herr hsearch
    constructor
    · intro hnil
      constructor <;>
        simp [Stdio.handleGetDocument, Sse.handleGetDocument, herr, hparams, hsearch, hnil]
    · intro h t hcons
      constructor <;>
        simp [Stdio.handleGetDocument, Sse.handleGetDocument, herr, hparams, hsearch, hcons]

/-- C2 witness: the amended statement evaluated on a backend where the
fallback search is empty (not-found error results) and on one where the
fallback search returns a hit (that hit is returned). -/
theorem c2_fallback_amended_witness :
    Stdio.handleGetDocument cfgD beEmpty { id := some "missing.md" } =
      .error ("Document not found: " ++ jsStr (some "missing.md")) ∧
    Sse.handleGetDocument cfgD beConnRefused { id := some "x" } = .ok hitA := by
  refine ⟨?_, ?_⟩
  · exact (((c2_fallback_amended cfgD beEmpty { id := some "missing.md" }).2
      { kind := .notFound, message := "document not found" } respEmpty rfl rfl).1 rfl).1
  · exact (((c2_fallback_amended cfgD beConnRefused { id := some "x" }).2
      { kind := .other, message := "connection refused" } respOne rfl rfl).2 hitA [] rfl).2

/-- C3 counterexample: the claim fails as stated — in the SSE binding a
question with zero hits yields a not-found result whose serialization has no
suggestion key, and the found shape of that binding has no note key, against
the claimed fixed suggestion and synthesis-instruction note. -/
theorem c3_lookup_counterexample :
    Sse.handleLookupDecision cfgD beEmpty { question := some "why redis" } =
      .ok (Sse.LookupRes.notFound "No relevant decisions found.") ∧
    (Sse.lookupResJson (.notFound "No relevant decisions found.")).getField "found" =
      some (.bool false) ∧
    (Sse.lookupResJson (.notFound "No relevant decisions found.")).getField "suggestion" =
      none ∧
    (Sse.lookupResJson (.found (some "why redis") [])).getField "note" = none :=
  ⟨rfl, rfl, rfl, rfl⟩

/-- C3 amended: in the stdio binding the claim holds as written — one
document search with the question as text and limit 5; zero hits gives
found: false with the fixed message and suggestion and a serialization
without a relevant_documents key; one or more hits gives found: true, the
evidence list built from the hits' normalized fields (one entry per hit, so
of length min(hits, 5) whenever the backend honours the limit 5), and the
fixed synthesis note.  In the SSE binding the miss shape carries only a
shorter message (no suggestion) and the hit shape carries no note. -/
theorem c3_lookup_amended (cfg : Config) (be : Backend) (q : String) (r : SearchResponse)
    (hs : be.search cfg.indexName (some q)
      (Stdio.searchDocsParams { query := some q, limit := some 5 }) = .ok r) :
    (Stdio.searchDocsParams { query := some q, limit := some 5 }).limit = some 5 ∧
    (r.hits = [] →
      Stdio.handleLookupDecision cfg be { question := some q } =
        .ok (.notFound "No relevant decisions found for this question."
          "Try rephrasing your question or use search_docs with different keywords.")) ∧
    (r.hits ≠ [] →
      Stdio.handleLookupDecision cfg be { question := some q } =
        .ok (.found (some q) ((r.hits.map Stdio.docOutOfHit).map Stdio.relevantOf)
          "Synthesize an answer from these documents. If the answer is unclear, say so.") ∧
      ((r.hits.map Stdio.docOutOfHit).map Stdio.relevantOf).length = r.hits.length ∧
      (r.hits.length ≤ 5 →
        ((r.hits.map Stdio.docOutOfHit).map Stdio.relevantOf).length =
          min r.hits.length 5)) ∧
    (∀ m s, (Stdio.lookupResJson (.notFound m s)).getField "relevant_documents" = none) := by
  refine ⟨rfl, ?_, ?_, ?_⟩
  · intro hnil
    simp [Stdio.handleLookupDecision, Stdio.handleSearchDocs, hs, hnil]
  · intro hne
    refine ⟨?_, by simp, fun h5 => by simp [Nat.min_eq_left h5]⟩
    simp [Stdio.handleLookupDecision, Stdio.handleSearchDocs, hs, hne]
  · intro m s
    rfl

/-- C3 witness: the amended statement evaluated on a backend returning one
hit for the question. -/
theorem c3_lookup_amended_witness :
    Stdio.handleLookupDecision cfgD beOk { question := some "why" } =
      .ok (.found (some "why") ((respOne.hits.map Stdio.docOutOfHit).map Stdio.relevantOf)
        "Synthesize an answer from these documents. If the answer is unclear, say so.") :=
  ((c3_lookup_amended cfgD beOk "why" respOne rfl).2.2.1 (by decide)).1

/-- C4 counterexample: the claim fails as stated — the SSE binding never
consults the highlighted description (a hit with a non-empty highlighted
description and no highlighted content gets the empty snippet), and in the
stdio binding a hit whose highlighted description is the empty string falls
through to the content-derived snippet instead of a description-derived one. -/
theorem c4_snippet_counterexample :
    Sse.snippetOf hitDescOnly = "" ∧
    hitDescOnly.formatted.bind (fun f => f.description) = some "**adr** context" ∧
    ("**adr** context" : String) ≠ "" ∧
    Stdio.snippetOf hitEmptyDesc = "body" ∧
    hitEmptyDesc.formatted.bind (fun f => f.description) = some "" ∧
    ("body" : String) ≠ "" :=
  ⟨rfl, rfl, by decide, rfl, rfl, by decide⟩

/-- C4 amended: in the stdio binding the fallback order holds for truthy
fragments — a hit with a non-empty highlighted description gets that
description as snippet; a hit whose highlighted description is absent or
empty and whose highlighted content has a non-empty 300-character prefix
gets that prefix; a hit with neither gets the empty string.  In the SSE
binding the snippet is always the content-derived capped prefix or empty,
and the highlighted description is never used. -/
theorem c4_snippet_amended (h : RawHit) :
    (∀ d, h.formatted.bind (fun f => f.description) = some d → d ≠ "" →
      Stdio.snippetOf h = d) ∧
    (∀ c, (h.formatted.bind (fun f => f.description) = none ∨
           h.formatted.bind (fun f => f.description) = some "") →
      h.formatted.bind (fun f => f.content) = some c → jsSlice c 300 ≠ "" →
      Stdio.snippetOf h = jsSlice c 300) ∧
    ((h.formatted.bind (fun f => f.description) = none ∨
      h.formatted.bind (fun f => f.description) = some "") →
     (h.formatted.bind (fun f => f.content) = none ∨
      h.formatted.bind (fun f => f.content) = some "") →
     Stdio.snippetOf h = "") ∧
    (∀ c, h.formatted.bind (fun f => f.content) = some c → jsSlice c 300 ≠ "" →
      Sse.snippetOf h = jsSlice c 300) ∧
    (h.formatted.bind (fun f => f.content) = none → Sse.snippetOf h = "") := by
  refine ⟨?_, ?_, ?_, ?_, ?_⟩
  · intro d hd hne
    simp [Stdio.snippetOf, hd, jsOrS, hne]
  · intro c hfd hfc hne
    rcases hfd with hfd | hfd <;> simp [Stdio.snippetOf, hfd, hfc, jsOrS, hne]
  · intro hfd hfc
    rcases hfd with hfd | hfd <;> rcases hfc with hfc | hfc <;>
      simp [Stdio.snippetOf, hfd, hfc, jsOrS] <;> rfl
  · intro c hfc hne
    simp [Sse.snippetOf, hfc, jsOrS, hne]
  · intro hfc
    simp [Sse.snippetOf, hfc, jsOrS]

/-- C4 witness: the amended statement evaluated on a hit carrying only
highlighted content. -/
theorem c4_snippet_amended_witness :
    Stdio.snippetOf hitContentOnly = jsSlice "chunk text" 300 ∧
    Sse.snippetOf hitContentOnly = jsSlice "chunk text" 300 := by
  have h := c4_snippet_amended hitContentOnly
  exact ⟨h.2.1 "chunk text" (Or.inl rfl) rfl (by decide),
    h.2.2.2.1 "chunk text" rfl (by decide)⟩

/-- C5: confirmed — in both bindings a non-empty tag list yields the filter
expression that OR-joins one exact tag-equality clause per member, and an
empty or absent tag list yields no filter expression at all. -/
theorem c5_tags_filter (args : ToolArgs) :
    (∀ ts, args.tags = some ts → ts ≠ [] →
      (Stdio.searchDocsParams args).filter =
        some (String.intercalate " OR " (ts.map (fun t => "tags = \"" ++ t ++ "\""))) ∧
      (Sse.searchDocsParams args).filter =
        some (String.intercalate " OR " (ts.map (fun t => "tags = \"" ++ t ++ "\"")))) ∧
    ((args.tags = none ∨ args.tags = some []) →
      (Stdio.searchDocsParams args).filter = none ∧
      (Sse.searchDocsParams args).filter = none) := by
  constructor
  · intro ts hts hne
    have hpos : 0 < ts.length := List.length_pos.mpr hne
    constructor <;> simp [Stdio.searchDocsParams, Sse.searchDocsParams, hts, hpos]
  · intro h
    rcases h with h | h <;>
      exact ⟨by simp [Stdio.searchDocsParams, h], by simp [Sse.searchDocsParams, h]⟩

/-- C5 witness: the filter built for the concrete tag list [a, b], and its
omission for the empty tag list. -/
theorem c5_tags_filter_witness :
    (Stdio.searchDocsParams { tags := some ["a", "b"] }).filter =
      some (String.intercalate " OR "
        (["a", "b"].map (fun t => "tags = \"" ++ t ++ "\""))) ∧
    (Stdio.searchDocsParams { tags := some [] }).filter = none :=
  ⟨((c5_tags_filter { tags := some ["a", "b"] }).1 ["a", "b"] rfl (by simp)).1,
    ((c5_tags_filter { tags := some [] }).2 (Or.inr rfl)).1⟩

/-- C6 counterexample: the claim fails as stated — the two bindings do not
expose the same descriptor set (the SSE binding lacks list_tags), and the
same list_tags invocation succeeds on the stdio binding while the SSE
binding rejects it as an unknown tool. -/
theorem c6_bindings_counterexample :
    Stdio.tools.map ToolDescriptor.name =
      ["search_docs", "search_chunks", "get_document", "list_tags", "lookup_decision"] ∧
    Sse.tools.map ToolDescriptor.name =
      ["search_docs", "search_chunks", "get_document", "lookup_decision"] ∧
    Stdio.tools.map ToolDescriptor.name ≠ Sse.tools.map ToolDescriptor.name ∧
    (Stdio.dispatch cfgD beOk "list_tags" {}).isError = false ∧
    (Sse.dispatch cfgD beOk "list_tags" {}).isError = true := by
  refine ⟨rfl, rfl, by decide, rfl, rfl⟩

/-- C6 amended: the bindings do not preserve the tool contract verbatim.
What does hold: the SSE registry is exactly the stdio registry minus
list_tags at the level of descriptor skeletons (names, parameter names,
required names; the prose descriptions differ and are not modelled), and
the get_document handlers of the two bindings agree on every backend and
argument set; the remaining handlers produce different result shapes. -/
theorem c6_bindings_amended :
    Sse.tools = Stdio.tools.filter (fun t => t.name != "list_tags") ∧
    ∀ cfg be args, Stdio.handleGetDocument cfg be args = Sse.handleGetDocument cfg be args :=
  ⟨by decide, fun cfg be args => rfl⟩

/-- C7 counterexample: the claim fails as stated — invoking search_docs with
an argument bag missing the required query parameter is not rejected by any
validation: with a healthy backend the dispatch yields a success envelope,
and with an unreachable backend it yields the backend's error, so the
handler ran and the backend call was made. -/
theorem c7_validation_counterexample :
    ({} : ToolArgs).query = none ∧
    (Stdio.dispatch cfgD beOk "search_docs" {}).isError = false ∧
    Stdio.dispatch cfgD beDown "search_docs" {} =
      { payload := .obj [("error", .str "meili down")], isError := true } ∧
    (Sse.dispatch cfgD beOk "search_docs" {}).isError = false ∧
    Sse.dispatch cfgD beDown "search_docs" {} =
      { payload := .obj [("error", .str "meili down")], isError := true } :=
  ⟨rfl, rfl, rfl, rfl, rfl⟩

/-- C7 amended: no argument validation against the input schema happens
before a handler runs; the only pre-handler check is the tool-name lookup.
An invocation of search_docs whose arguments lack the required query runs
the handler, which issues the backend search with no query text, and the
dispatch returns the handler's success envelope whenever the backend call
succeeds. -/
theorem c7_validation_amended (cfg : Config) (be : Backend) (r : SearchResponse)
    (hs : be.search cfg.indexName none (Stdio.searchDocsParams {}) = .ok r)
    (hs' : be.search cfg.indexName none (Sse.searchDocsParams {}) = .ok r) :
    Stdio.dispatch cfg be "search_docs" {} =
      { payload := Stdio.searchDocsResJson
          { total := r.estimatedTotalHits, results := r.hits.map Stdio.docOutOfHit }
        isError := false } ∧
    Sse.dispatch cfg be "search_docs" {} =
      { payload := Sse.searchDocsResJson
          { total := r.estimatedTotalHits, results := r.hits.map Sse.docOutOfHit }
        isError := false } := by
  constructor
  · simp [Stdio.dispatch, Stdio.runTool, Stdio.handleSearchDocs, hs, Except.map]
  · simp [Sse.dispatch, Sse.runTool, Sse.handleSearchDocs, hs', Except.map]

/-- C7 witness: the amended statement evaluated on the healthy backend. -/
theorem c7_validation_amended_witness :
    Stdio.dispatch cfgD beOk "search_docs" {} =
      { payload := Stdio.searchDocsResJson
          { total := respOne.estimatedTotalHits, results := respOne.hits.map Stdio.docOutOfHit }
        isError := false } :=
  (c7_validation_amended cfgD beOk respOne rfl rfl).1

/-- C8: confirmed — in both bindings an unknown tool name yields the error
envelope with isError true carrying the failure message, and every dispatch
outcome is exactly one envelope that is either a success envelope or that
same error-envelope shape, so no handler failure escapes the dispatch
boundary. -/
theorem c8_dispatch_envelope (cfg : Config) (be : Backend) (name : String) (args : ToolArgs) :
    (name ∉ (["search_docs", "search_chunks", "get_document", "list_tags",
        "lookup_decision"] : List String) →
      Stdio.dispatch cfg be name args =
        { payload := .obj [("error", .str ("Unknown tool: " ++ name))], isError := true }) ∧
    (name ∉ (["search_docs", "search_chunks", "get_document",
        "lookup_decision"] : List String) →
      Sse.dispatch cfg be name args =
        { payload := .obj [("error", .str ("Unknown tool: " ++ name))], isError := true }) ∧
    ((Stdio.dispatch cfg be name args).isError = false ∨
      ∃ m, Stdio.dispatch cfg be name args =
        { payload := .obj [("error", .str m)], isError := true }) ∧
    ((Sse.dispatch cfg be name args).isError = false ∨
      ∃ m, Sse.dispatch cfg be name args =
        { payload := .obj [("error", .str m)], isError := true }) := by
  refine ⟨?_, ?_, ?_, ?_⟩
  · intro hname
    simp only [List.mem_cons, List.not_mem_nil, or_false, not_or] at hname
    obtain ⟨h1, h2, h3, h4, h5⟩ := hname
    simp [Stdio.dispatch, Stdio.runTool, h1, h2, h3, h4, h5]
  · intro hname
    simp only [List.mem_cons, List.not_mem_nil, or_false, not_or] at hname
    obtain ⟨h1, h2, h3, h4⟩ := hname
    simp [Sse.dispatch, Sse.runTool, h1, h2, h3, h4]
  · cases hr : Stdio.runTool cfg be name args with
    | ok j => exact Or.inl (by simp [Stdio.dispatch, hr])
    | error e => exact Or.inr ⟨e, by simp [Stdio.dispatch, hr]⟩
  · cases hr : Sse.runTool cfg be name args with
    | ok j => exact Or.inl (by simp [Sse.dispatch, hr])
    | error e => exact Or.inr ⟨e, by simp [Sse.dispatch, hr]⟩

/-- C8 witness: the envelope produced for concrete unknown tool names. -/
theorem c8_dispatch_envelope_witness :
    Stdio.dispatch cfgD beOk "make_coffee" {} =
      { payload := .obj [("error", .str ("Unknown tool: " ++ "make_coffee"))]
        isError := true } ∧
    Sse.dispatch cfgD beOk "nope" {} =
      { payload := .obj [("error", .str ("Unknown tool: " ++ "nope"))]
        isError := true } :=
  ⟨(c8_dispatch_envelope cfgD beOk "make_coffee" {}).1 (by decide),
    (c8_dispatch_envelope cfgD beOk "nope" {}).2.1 (by decide)⟩

/-- C9: confirmed — list_tags queries with empty text, limit 0 and a facet
request on the tags field; its output is the facet-count entries sorted by
count descending by a stable sort (the sorted output is a permutation of the
backend entries, pairwise descending in count, and the subsequence of any
one count is unchanged, so ties keep backend order); on the counts
a to 3 and b to 7 the output is b, 7 then a, 3. -/
theorem c9_list_tags (cfg : Config) (be : Backend) (r : SearchResponse) :
    Stdio.listTagsParams.limit = some 0 ∧
    Stdio.listTagsParams.facets = some ["tags"] ∧
    (be.search cfg.indexName (some "") Stdio.listTagsParams = .ok r →
      Stdio.handleListTags cfg be =
        .ok { tags := Stdio.sortDesc
                ((r.facetDistribution.bind (fun fd => fd.lookup "tags")).getD []) }) ∧
    (∀ l : List (String × Nat),
      (Stdio.sortDesc l).Perm l ∧
      (Stdio.sortDesc l).Pairwise (fun a b => b.2 ≤ a.2) ∧
      ∀ c, (Stdio.sortDesc l).filter (fun e => e.2 == c) =
        l.filter (fun e => e.2 == c)) ∧
    Stdio.sortDesc [("a", 3), ("b", 7)] = [("b", 7), ("a", 3)] := by
  refine ⟨rfl, rfl, ?_, ?_, by decide⟩
  · intro hs
    simp [Stdio.handleListTags, hs]
  · intro l
    exact ⟨Stdio.sortDesc_perm l, Stdio.sortDesc_sorted l,
      fun c => Stdio.sortDesc_filter l c⟩

/-- C9 witness: the concrete facet counts a to 3 and b to 7 produce
the descending pair list. -/
theorem c9_list_tags_witness :
    Stdio.handleListTags cfgD beFacets =
      .ok { tags := Stdio.sortDesc [("a", 3), ("b", 7)] } :=
  (c9_list_tags cfgD beFacets respFacets).2.2.1 rfl

/-- C10: confirmed — when the backend response has no facet distribution, or
a facet distribution without a tags entry, list_tags still succeeds with the
well-formed empty tag list. -/
theorem c10_list_tags_total (cfg : Config) (be : Backend) (r : SearchResponse)
    (hs : be.search cfg.indexName (some "") Stdio.listTagsParams = .ok r) :
    (r.facetDistribution = none → Stdio.handleListTags cfg be = .ok { tags := [] }) ∧
    (∀ fd, r.facetDistribution = some fd → fd.lookup "tags" = none →
      Stdio.handleListTags cfg be = .ok { tags := [] }) := by
  constructor
  · intro hfd
    simp [Stdio.handleListTags, hs, hfd, Stdio.sortDesc]
  · intro fd hfd hlk
    simp [Stdio.handleListTags, hs, hfd, hlk, Stdio.sortDesc]

/-- C10 witness: list_tags on a backend with no facet distribution and on
one whose facet distribution lacks a tags entry. -/
theorem c10_list_tags_total_witness :
    Stdio.handleListTags cfgD beEmpty = .ok { tags := [] } ∧
    Stdio.handleListTags cfgD beNoTagsFacet = .ok { tags := [] } :=
  ⟨(c10_list_tags_total cfgD beEmpty respEmpty rfl).1 rfl,
    (c10_list_tags_total cfgD beNoTagsFacet respNoTagsFacet rfl).2
      [("lang", [("en", 2)])] rfl rfl⟩
